import Mathlib

/-
Verification of the fault classification and health aggregation policy of
the FDL 6x thermocouple logger (FDL-6xTC-Test-Mk1.ino).

The embedding models the two per-family reading classifiers
(readMAX31855 for the Type A / MAX31855 channels, readMAX31856 for the
Type B / MAX31856 channels), the bring-up functions, the main loop's
aggregation of six channel verdicts into an LED color, and the
setup/loop control flow as a step function on a small system state.

Hardware readings (whether a temperature read is NaN, and the raw fault
bitmask returned by each device) are inputs to the model; the serial
reporting is pure output and is not modelled.
-/

namespace FDL

/-- LED color OFF, from the source's COLOR_OFF define. -/
def COLOR_OFF : Nat := 0x000000

/-- LED color for initialization (blue), from the source's COLOR_INIT define. -/
def COLOR_INIT : Nat := 0x0000FF

/-- LED color for all-OK (green), from the source's COLOR_OK define. -/
def COLOR_OK : Nat := 0x00FF00

/-- LED color for non-critical faults (yellow), from the source's COLOR_WARNING define. -/
def COLOR_WARNING : Nat := 0xFFFF00

/-- LED color for critical errors (red), from the source's COLOR_ERROR define. -/
def COLOR_ERROR : Nat := 0xFF0000

/-- Modelled from the spec: the MAX31855 (Type A) open-circuit fault flag.
The Adafruit_MAX31855 header defining it is not under src/; the spec names
the three Type A flags open-circuit, short-to-ground, short-to-VCC as
independently-settable bits of a 4-bit fault code. -/
def MAX31855_FAULT_OPEN : Nat := 0x01

/-- Modelled from the spec: the MAX31855 (Type A) short-to-ground fault flag. -/
def MAX31855_FAULT_SHORT_GND : Nat := 0x02

/-- Modelled from the spec: the MAX31855 (Type A) short-to-VCC fault flag. -/
def MAX31855_FAULT_SHORT_VCC : Nat := 0x04

/-- Modelled from the spec: the MAX31856 (Type B) open-circuit fault flag.
The Adafruit_MAX31856 header is not under src/; the spec fixes this bit via
the signature bitmask 0x41 = open-circuit + TC-out-of-range, and names the
eight flags as the eight independently-settable bits of the 8-bit code. -/
def MAX31856_FAULT_OPEN : Nat := 0x01

/-- Modelled from the spec: the MAX31856 (Type B) over/under-voltage fault flag. -/
def MAX31856_FAULT_OVUV : Nat := 0x02

/-- Modelled from the spec: the MAX31856 (Type B) thermocouple-temperature-low flag. -/
def MAX31856_FAULT_TCLOW : Nat := 0x04

/-- Modelled from the spec: the MAX31856 (Type B) thermocouple-temperature-high flag. -/
def MAX31856_FAULT_TCHIGH : Nat := 0x08

/-- Modelled from the spec: the MAX31856 (Type B) cold-junction-low fault flag. -/
def MAX31856_FAULT_CJLOW : Nat := 0x10

/-- Modelled from the spec: the MAX31856 (Type B) cold-junction-high fault flag. -/
def MAX31856_FAULT_CJHIGH : Nat := 0x20

/-- Modelled from the spec: the MAX31856 (Type B) thermocouple-out-of-range flag. -/
def MAX31856_FAULT_TCRANGE : Nat := 0x40

/-- Modelled from the spec: the MAX31856 (Type B) cold-junction-out-of-range flag. -/
def MAX31856_FAULT_CJRANGE : Nat := 0x80

/-- The flag count computed inside readMAX31855: one increment per set flag
among the three Type A fault flags, exactly as the three if-blocks of the
source accumulate faultCount. -/
def faultCountA (fault : Nat) : Nat :=
  (if fault &&& MAX31855_FAULT_OPEN ≠ 0 then 1 else 0) +
  (if fault &&& MAX31855_FAULT_SHORT_GND ≠ 0 then 1 else 0) +
  (if fault &&& MAX31855_FAULT_SHORT_VCC ≠ 0 then 1 else 0)

/-- The flag count computed inside readMAX31856: one increment per set flag
among the eight Type B fault flags, exactly as the eight if-blocks of the
source accumulate faultCount. -/
def faultCountB (fault : Nat) : Nat :=
  (if fault &&& MAX31856_FAULT_OPEN ≠ 0 then 1 else 0) +
  (if fault &&& MAX31856_FAULT_OVUV ≠ 0 then 1 else 0) +
  (if fault &&& MAX31856_FAULT_TCLOW ≠ 0 then 1 else 0) +
  (if fault &&& MAX31856_FAULT_TCHIGH ≠ 0 then 1 else 0) +
  (if fault &&& MAX31856_FAULT_CJLOW ≠ 0 then 1 else 0) +
  (if fault &&& MAX31856_FAULT_CJHIGH ≠ 0 then 1 else 0) +
  (if fault &&& MAX31856_FAULT_TCRANGE ≠ 0 then 1 else 0) +
  (if fault &&& MAX31856_FAULT_CJRANGE ≠ 0 then 1 else 0)

/-- Embedding of readMAX31855. Inputs: whether tc.readCelsius() came back NaN,
the bitmask returned by tc.readError(), and the caller's criticalError flag
(passed by reference in the source). Returns (hasFault, updated criticalError):
hasFault is set exactly when the temperature is NaN; inside that branch the
three named flags are counted and criticalError is set when faultCount > 1. -/
def readMAX31855 (tempIsNaN : Bool) (fault : Nat) (criticalError : Bool) :
    Bool × Bool :=
  if tempIsNaN then
    (true, if faultCountA fault > 1 then true else criticalError)
  else
    (false, criticalError)

/-- Embedding of readMAX31856. Inputs: the bitmask returned by tc.readFault()
and the caller's criticalError flag. Returns (hasFault, updated criticalError):
hasFault is set exactly when the bitmask is non-zero; inside that branch the
eight named flags are counted and criticalError is set when faultCount > 2 or
the bitmask is 0xFF. -/
def readMAX31856 (fault : Nat) (criticalError : Bool) : Bool × Bool :=
  if fault ≠ 0 then
    (true, if faultCountB fault > 2 ∨ fault = 0xFF then true else criticalError)
  else
    (false, criticalError)

/-- Variant of readMAX31856 whose critical condition drops the all-flags
disjunct (fault == 0xFF) and keeps only the flag-count test; defined for
comparison with readMAX31856. -/
def readMAX31856_noAllFlags (fault : Nat) (criticalError : Bool) : Bool × Bool :=
  if fault ≠ 0 then
    (true, if faultCountB fault > 2 then true else criticalError)
  else
    (false, criticalError)

/-- The ChannelVerdict {hasFault, isCritical} a Type A channel contributes in
one cycle: the classifier run with a clear incoming criticalError flag, so the
second component is exactly this channel's own critical contribution. -/
def verdictA (tempIsNaN : Bool) (fault : Nat) : Bool × Bool :=
  readMAX31855 tempIsNaN fault false

/-- The ChannelVerdict {hasFault, isCritical} a Type B channel contributes in
one cycle: the classifier run with a clear incoming criticalError flag. -/
def verdictB (fault : Nat) : Bool × Bool :=
  readMAX31856 fault false

/-- The hardware readings one poll cycle consumes: per Type A channel (TC0-TC3)
whether readCelsius() was NaN and the readError() bitmask, and per Type B
channel (TC4, TC5) the readFault() bitmask. -/
structure CycleInputs where
  nan0 : Bool
  err0 : Nat
  nan1 : Bool
  err1 : Nat
  nan2 : Bool
  err2 : Nat
  nan3 : Bool
  err3 : Nat
  fault4 : Nat
  fault5 : Nat
  deriving DecidableEq

/-- One iteration of loop() up to the LED update: anyFaults is OR-accumulated
over the six reads in source order (TC0..TC3 then TC4, TC5) and criticalError
is threaded through all six reads, starting from false. Returns
(anyFaults, criticalError). -/
def loopCycle (ins : CycleInputs) : Bool × Bool :=
  let r0 := readMAX31855 ins.nan0 ins.err0 false
  let r1 := readMAX31855 ins.nan1 ins.err1 r0.2
  let r2 := readMAX31855 ins.nan2 ins.err2 r1.2
  let r3 := readMAX31855 ins.nan3 ins.err3 r2.2
  let r4 := readMAX31856 ins.fault4 r3.2
  let r5 := readMAX31856 ins.fault5 r4.2
  (r0.1 || r1.1 || r2.1 || r3.1 || r4.1 || r5.1, r5.2)

/-- The LED color loop() renders for one cycle: COLOR_ERROR when criticalError
is set, else COLOR_WARNING when anyFaults is set, else COLOR_OK. -/
def loopColor (ins : CycleInputs) : Nat :=
  let r := loopCycle ins
  if r.2 then COLOR_ERROR
  else if r.1 then COLOR_WARNING
  else COLOR_OK

/-- The six per-channel verdicts of one cycle, in source polling order. -/
def verdictList (ins : CycleInputs) : List (Bool × Bool) :=
  [verdictA ins.nan0 ins.err0, verdictA ins.nan1 ins.err1,
   verdictA ins.nan2 ins.err2, verdictA ins.nan3 ins.err3,
   verdictB ins.fault4, verdictB ins.fault5]

/-- Embedding of initMAX31855Sensors: allOK starts true and each failed
begin() clears it; the inputs are the four begin() results. -/
def initMAX31855Sensors (begin0 begin1 begin2 begin3 : Bool) : Bool :=
  let allOK := true
  let allOK := if !begin0 then false else allOK
  let allOK := if !begin1 then false else allOK
  let allOK := if !begin2 then false else allOK
  let allOK := if !begin3 then false else allOK
  allOK

/-- Embedding of initMAX31856Sensors: allOK starts true and each failed
begin() clears it; the inputs are the two begin() results. -/
def initMAX31856Sensors (begin4 begin5 : Bool) : Bool :=
  let allOK := true
  let allOK := if !begin4 then false else allOK
  let allOK := if !begin5 then false else allOK
  allOK

/-- Control-flow phase of the sketch after setup() has run: either the
terminal halt loop of a fatal bring-up failure, or the normal loop() phase. -/
inductive Phase where
  | halted
  | running
  deriving DecidableEq

/-- Observable system state: the control-flow phase, the last color written to
the status LED, and how many polling cycles have completed. -/
structure SysSt where
  phase : Phase
  led : Nat
  cycles : Nat
  deriving DecidableEq

/-- The begin() results of the six channels during bring-up. -/
structure SetupEnv where
  begin0 : Bool
  begin1 : Bool
  begin2 : Bool
  begin3 : Bool
  begin4 : Bool
  begin5 : Bool
  deriving DecidableEq

/-- Embedding of setup(): if initMAX31855Sensors fails the LED is set to
COLOR_ERROR and the system halts (while(1) delay); else if
initMAX31856Sensors fails, likewise; else the LED is set to COLOR_OK and the
system enters the running phase. No polling cycle has run yet. -/
def runSetup (env : SetupEnv) : SysSt :=
  if !(initMAX31855Sensors env.begin0 env.begin1 env.begin2 env.begin3) then
    ⟨Phase.halted, COLOR_ERROR, 0⟩
  else if !(initMAX31856Sensors env.begin4 env.begin5) then
    ⟨Phase.halted, COLOR_ERROR, 0⟩
  else
    ⟨Phase.running, COLOR_OK, 0⟩

/-- One step of the sketch after setup: in the halted phase the while(1)
delay loop changes nothing; in the running phase one loop() iteration runs,
rendering the LED from this cycle's readings and advancing the cycle count.
The readings function supplies the hardware inputs of each cycle. -/
def step (readings : Nat → CycleInputs) (s : SysSt) : SysSt :=
  match s.phase with
  | Phase.halted => s
  | Phase.running =>
      ⟨Phase.running, loopColor (readings s.cycles), s.cycles + 1⟩

/-
Helper lemmas.
-/

set_option maxRecDepth 8192 in
/-- Characterization of the Type A critical verdict over all 8-bit bitmasks. -/
theorem verdictA_char : ∀ f : Fin 256,
    ((verdictA true f.val).2 = true ↔ faultCountA f.val > 1) ∧
    (faultCountA f.val = 1 → verdictA true f.val = (true, false)) ∧
    (2 ≤ faultCountA f.val → verdictA true f.val = (true, true)) := by
  decide

set_option maxRecDepth 8192 in
/-- Characterization of the Type B verdict over all 8-bit bitmasks. -/
theorem verdictB_char : ∀ f : Fin 256,
    ((verdictB f.val).1 = true ↔ f.val ≠ 0) ∧
    ((verdictB f.val).2 = true ↔ (faultCountB f.val > 2 ∨ f.val = 0xFF)) := by
  decide

set_option maxRecDepth 8192 in
/-- The all-flags disjunct of readMAX31856 is vacuous over all 8-bit bitmasks. -/
theorem read56_drop_allflags : ∀ f : Fin 256, ∀ c : Bool,
    readMAX31856 f.val c = readMAX31856_noAllFlags f.val c := by
  decide

set_option maxRecDepth 8192 in
/-- Bits outside the three named Type A flags do not affect the verdict. -/
theorem verdictA_masked : ∀ f : Fin 256,
    (f.val &&& (MAX31855_FAULT_OPEN ||| MAX31855_FAULT_SHORT_GND |||
        MAX31855_FAULT_SHORT_VCC) = 0 → verdictA true f.val = (true, false)) ∧
    verdictA true f.val = verdictA true (f.val &&& (MAX31855_FAULT_OPEN |||
        MAX31855_FAULT_SHORT_GND ||| MAX31855_FAULT_SHORT_VCC)) := by
  decide

/-- The hasFault result of readMAX31855 is exactly the NaN input. -/
theorem read55_fst (n : Bool) (f : Nat) (c : Bool) :
    (readMAX31855 n f c).1 = n := by
  cases n <;> rfl

/-- The criticalError result of readMAX31855 is the incoming flag OR-ed with
this channel's own critical contribution. -/
theorem read55_snd (n : Bool) (f : Nat) (c : Bool) :
    (readMAX31855 n f c).2 = (c || (n && decide (faultCountA f > 1))) := by
  cases n <;> by_cases h : faultCountA f > 1 <;> simp [readMAX31855, h]

/-- The hasFault result of readMAX31856 is exactly non-zero-ness of the bitmask. -/
theorem read56_fst (f : Nat) (c : Bool) :
    (readMAX31856 f c).1 = decide (f ≠ 0) := by
  by_cases h : f = 0 <;> simp [readMAX31856, h]

/-- The criticalError result of readMAX31856 is the incoming flag OR-ed with
this channel's own critical contribution. -/
theorem read56_snd (f : Nat) (c : Bool) :
    (readMAX31856 f c).2 =
      (c || (decide (f ≠ 0) && decide (faultCountB f > 2 ∨ f = 0xFF))) := by
  by_cases h : f = 0
  · simp [readMAX31856, h]
  · by_cases h2 : faultCountB f > 2 ∨ f = 0xFF <;> simp [readMAX31856, h, h2]

/-- Projection of verdictA to the hasFault flag. -/
theorem verdictA_fst (n : Bool) (f : Nat) : (verdictA n f).1 = n :=
  read55_fst n f false

/-- Projection of verdictA to the isCritical flag. -/
theorem verdictA_snd (n : Bool) (f : Nat) :
    (verdictA n f).2 = (n && decide (faultCountA f > 1)) := by
  simp [verdictA, read55_snd]

/-- Projection of verdictB to the hasFault flag. -/
theorem verdictB_fst (f : Nat) : (verdictB f).1 = decide (f ≠ 0) :=
  read56_fst f false

/-- Projection of verdictB to the isCritical flag. -/
theorem verdictB_snd (f : Nat) :
    (verdictB f).2 = (decide (f ≠ 0) && decide (faultCountB f > 2 ∨ f = 0xFF)) := by
  simp [verdictB, read56_snd]

/-- A Type A critical verdict is always a faulted verdict. -/
theorem verdictA_crit_fault (n : Bool) (f : Nat) :
    (verdictA n f).2 = true → (verdictA n f).1 = true := by
  rw [verdictA_snd, verdictA_fst]
  intro h
  simp only [Bool.and_eq_true] at h
  exact h.1

/-- A Type B critical verdict is always a faulted verdict. -/
theorem verdictB_crit_fault (f : Nat) :
    (verdictB f).2 = true → (verdictB f).1 = true := by
  rw [verdictB_snd, verdictB_fst]
  intro h
  simp only [Bool.and_eq_true] at h
  exact h.1

/-- The loop body computes exactly the OR-reduction of the six per-channel
verdicts: anyFaults is the OR of the hasFault flags, criticalError the OR of
the isCritical flags. -/
theorem loopCycle_eq (ins : CycleInputs) :
    loopCycle ins = ((verdictList ins).any (fun v => v.1),
                     (verdictList ins).any (fun v => v.2)) := by
  simp [loopCycle, verdictList, verdictA, verdictB, read55_fst, read55_snd,
    read56_fst, read56_snd, Bool.or_assoc]

/-- The rendered LED color as a function of the two OR-reductions. -/
theorem loopColor_eq (ins : CycleInputs) :
    loopColor ins =
      (if (verdictList ins).any (fun v => v.2) then COLOR_ERROR
       else if (verdictList ins).any (fun v => v.1) then COLOR_WARNING
       else COLOR_OK) := by
  simp only [loopColor, loopCycle_eq]

/-- If some channel verdict of a cycle is critical, some channel has a fault. -/
theorem anyCrit_anyFault (ins : CycleInputs) :
    (verdictList ins).any (fun v => v.2) = true →
    (verdictList ins).any (fun v => v.1) = true := by
  intro h
  obtain ⟨v, hv, hcrit⟩ := List.any_eq_true.mp h
  apply List.any_eq_true.mpr
  refine ⟨v, hv, ?_⟩
  simp only [verdictList, List.mem_cons, List.not_mem_nil, or_false] at hv
  rcases hv with hv | hv | hv | hv | hv | hv <;> subst hv
  · exact verdictA_crit_fault _ _ hcrit
  · exact verdictA_crit_fault _ _ hcrit
  · exact verdictA_crit_fault _ _ hcrit
  · exact verdictA_crit_fault _ _ hcrit
  · exact verdictB_crit_fault _ hcrit
  · exact verdictB_crit_fault _ hcrit

/-- initMAX31855Sensors succeeds exactly when all four begin() calls succeed. -/
theorem init55_eq : ∀ b0 b1 b2 b3 : Bool,
    initMAX31855Sensors b0 b1 b2 b3 = (b0 && b1 && b2 && b3) := by
  decide

/-- initMAX31856Sensors succeeds exactly when both begin() calls succeed. -/
theorem init56_eq : ∀ b4 b5 : Bool,
    initMAX31856Sensors b4 b5 = (b4 && b5) := by
  decide

/-- A step taken in the running phase performs one loop() iteration: the LED
takes this cycle's color and the cycle count advances; the phase stays
running. -/
theorem step_run (readings : Nat → CycleInputs) (s : SysSt)
    (h : s.phase = Phase.running) :
    step readings s = ⟨Phase.running, loopColor (readings s.cycles), s.cycles + 1⟩ := by
  obtain ⟨ph, led, cy⟩ := s
  cases ph
  · simp at h
  · rfl

/-- Iterating from a running state keeps the phase running and advances the
cycle count by one per step. -/
theorem iterate_run (readings : Nat → CycleInputs) (s : SysSt)
    (h : s.phase = Phase.running) (n : Nat) :
    ((step readings)^[n] s).phase = Phase.running ∧
    ((step readings)^[n] s).cycles = s.cycles + n := by
  induction n with
  | zero => exact ⟨h, rfl⟩
  | succ k ih =>
    rw [Function.iterate_succ_apply', step_run readings _ ih.1]
    refine ⟨rfl, ?_⟩
    show ((step readings)^[k] s).cycles + 1 = s.cycles + (k + 1)
    rw [ih.2, Nat.add_assoc]

/-
Claim theorems.
-/

/-- C1: In every poll cycle, the loop reports CRITICAL (indicator color
0xFF0000) iff at least one of the six channel verdicts is critical; WARNING
(0xFFFF00) iff no verdict is critical but at least one has a fault; and OK
(0x00FF00) iff no verdict has a fault. -/
theorem C1_system_health_colors (ins : CycleInputs) :
    (loopColor ins = COLOR_ERROR ↔
      (verdictList ins).any (fun v => v.2) = true) ∧
    (loopColor ins = COLOR_WARNING ↔
      ((verdictList ins).any (fun v => v.2) = false ∧
       (verdictList ins).any (fun v => v.1) = true)) ∧
    (loopColor ins = COLOR_OK ↔
      (verdictList ins).any (fun v => v.1) = false) := by
  have hcf := anyCrit_anyFault ins
  rw [loopColor_eq ins]
  revert hcf
  generalize (verdictList ins).any (fun v => v.2) = c
  generalize (verdictList ins).any (fun v => v.1) = a
  revert c a
  decide

/-- C2: For every 8-bit Type B fault bitmask, hasFault holds iff the bitmask
is non-zero, and isCritical holds iff more than two of the eight named flags
are set or all eight are set (bitmask 0xFF); in particular 0x41 yields
(hasFault, isCritical) = (true, false) and 0xFF is critical. -/
theorem C2_typeB_classifier (fault : Nat) (h : fault < 256) :
    ((verdictB fault).1 = true ↔ fault ≠ 0) ∧
    ((verdictB fault).2 = true ↔ (faultCountB fault > 2 ∨ fault = 0xFF)) ∧
    verdictB 0x41 = (true, false) ∧
    (verdictB 0xFF).2 = true := by
  exact ⟨(verdictB_char ⟨fault, h⟩).1, (verdictB_char ⟨fault, h⟩).2,
    by decide, by decide⟩

/-- Witness for C2 at the disconnected-thermocouple bitmask 0x41. -/
theorem C2_typeB_classifier_witness :
    ((verdictB 0x41).1 = true ↔ (0x41 : Nat) ≠ 0) ∧
    ((verdictB 0x41).2 = true ↔ (faultCountB 0x41 > 2 ∨ (0x41 : Nat) = 0xFF)) ∧
    verdictB 0x41 = (true, false) ∧
    (verdictB 0xFF).2 = true :=
  C2_typeB_classifier 0x41 (by decide)

/-- C3: For every faulted (NaN) Type A reading, isCritical holds iff more than
one of the three named flags is simultaneously set: every bitmask with exactly
one of those flags set yields (true, false), and every bitmask with two or
three of them set yields (true, true). -/
theorem C3_typeA_critical (fault : Nat) (h : fault < 256) :
    ((verdictA true fault).2 = true ↔ faultCountA fault > 1) ∧
    (faultCountA fault = 1 → verdictA true fault = (true, false)) ∧
    (2 ≤ faultCountA fault → verdictA true fault = (true, true)) :=
  verdictA_char ⟨fault, h⟩

/-- Witness for C3 at bitmask 0x03 (open-circuit + short-to-ground). -/
theorem C3_typeA_critical_witness :
    verdictA true 0x03 = (true, true) :=
  (C3_typeA_critical 0x03 (by decide)).2.2 (by decide)

/-- C4: A Type A channel's hasFault flag is exactly the NaN signal of the
temperature read, hence (under the hardware coupling of NaN with a non-zero
bitmask) it holds iff the bitmask is non-zero; a NaN reading whose bitmask
reads as zero still yields hasFault = true. -/
theorem C4_typeA_hasFault (tempIsNaN : Bool) (fault : Nat) :
    ((verdictA tempIsNaN fault).1 = tempIsNaN) ∧
    ((tempIsNaN = true ↔ fault ≠ 0) →
      ((verdictA tempIsNaN fault).1 = true ↔ fault ≠ 0)) ∧
    (verdictA true 0).1 = true := by
  refine ⟨verdictA_fst tempIsNaN fault, ?_, rfl⟩
  intro hiff
  rw [verdictA_fst]
  exact hiff

/-- Witness for C4 at a NaN reading with bitmask 1. -/
theorem C4_typeA_hasFault_witness :
    (verdictA true 1).1 = true ↔ (1 : Nat) ≠ 0 :=
  (C4_typeA_hasFault true 1).2.1 (by decide)

/-- C5: If any channel's begin() fails during bring-up - Type A or Type B -
setup ends in the terminal halted state with the indicator at 0xFF0000, and
every number of further steps leaves that state unchanged: the LED stays
0xFF0000 and the cycle count stays 0, so no polling cycle ever runs. -/
theorem C5_bringup_failure_halts (env : SetupEnv) (readings : Nat → CycleInputs)
    (h : env.begin0 = false ∨ env.begin1 = false ∨ env.begin2 = false ∨
         env.begin3 = false ∨ env.begin4 = false ∨ env.begin5 = false) :
    runSetup env = ⟨Phase.halted, COLOR_ERROR, 0⟩ ∧
    ∀ n : Nat, (step readings)^[n] (runSetup env) = ⟨Phase.halted, COLOR_ERROR, 0⟩ := by
  have hhalt : runSetup env = ⟨Phase.halted, COLOR_ERROR, 0⟩ := by
    unfold runSetup
    rcases h with h | h | h | h | h | h <;> simp [init55_eq, init56_eq, h]
  have hstep : ∀ n : Nat,
      (step readings)^[n] (⟨Phase.halted, COLOR_ERROR, 0⟩ : SysSt) =
        ⟨Phase.halted, COLOR_ERROR, 0⟩ := by
    intro n
    induction n with
    | zero => rfl
    | succ k ih => rw [Function.iterate_succ_apply', ih]; rfl
  exact ⟨hhalt, fun n => by rw [hhalt]; exact hstep n⟩

/-- Witness for C5: TC0's begin() fails, all others succeed; the system is
halted at 0xFF0000 and still halted with zero completed cycles after 7 steps. -/
theorem C5_bringup_failure_halts_witness :
    runSetup ⟨false, true, true, true, true, true⟩ =
      ⟨Phase.halted, COLOR_ERROR, 0⟩ ∧
    (step (fun _ => ⟨false, 0, false, 0, false, 0, false, 0, 0, 0⟩))^[7]
        (runSetup ⟨false, true, true, true, true, true⟩) =
      ⟨Phase.halted, COLOR_ERROR, 0⟩ :=
  ⟨(C5_bringup_failure_halts ⟨false, true, true, true, true, true⟩
      (fun _ => ⟨false, 0, false, 0, false, 0, false, 0, 0, 0⟩) (Or.inl rfl)).1,
   (C5_bringup_failure_halts ⟨false, true, true, true, true, true⟩
      (fun _ => ⟨false, 0, false, 0, false, 0, false, 0, 0, 0⟩) (Or.inl rfl)).2 7⟩

/-- C6: From any running state, whatever fault bitmasks and NaN signals the
channels report in any cycle, every iterate of the step function is still in
the running phase with the cycle count advanced one per step, and each step
renders the LED as that cycle's classification result: runtime faults change
only the color, never the control flow. -/
theorem C6_runtime_faults_never_halt (readings : Nat → CycleInputs) (s : SysSt)
    (h : s.phase = Phase.running) (n : Nat) :
    ((step readings)^[n] s).phase = Phase.running ∧
    ((step readings)^[n] s).cycles = s.cycles + n ∧
    ((step readings)^[n + 1] s).led = loopColor (readings (s.cycles + n)) := by
  obtain ⟨h1, h2⟩ := iterate_run readings s h n
  refine ⟨h1, h2, ?_⟩
  rw [Function.iterate_succ_apply', step_run readings _ h1, h2]

/-- Witness for C6: two steps from a fresh running state with every channel
reporting an open-circuit style fault (NaN with bitmask 1 on TC0, bitmask
0x41 on TC4): the system is still running with 2 completed cycles. -/
theorem C6_runtime_faults_never_halt_witness :
    ((step (fun _ => ⟨true, 1, false, 0, false, 0, false, 0, 0x41, 0⟩))^[2]
        (⟨Phase.running, COLOR_OK, 0⟩ : SysSt)).phase = Phase.running ∧
    ((step (fun _ => ⟨true, 1, false, 0, false, 0, false, 0, 0x41, 0⟩))^[2]
        (⟨Phase.running, COLOR_OK, 0⟩ : SysSt)).cycles =
      (⟨Phase.running, COLOR_OK, 0⟩ : SysSt).cycles + 2 ∧
    ((step (fun _ => ⟨true, 1, false, 0, false, 0, false, 0, 0x41, 0⟩))^[2 + 1]
        (⟨Phase.running, COLOR_OK, 0⟩ : SysSt)).led =
      loopColor ((fun _ => (⟨true, 1, false, 0, false, 0, false, 0, 0x41, 0⟩ :
        CycleInputs)) ((⟨Phase.running, COLOR_OK, 0⟩ : SysSt).cycles + 2)) :=
  C6_runtime_faults_never_halt
    (fun _ => ⟨true, 1, false, 0, false, 0, false, 0, 0x41, 0⟩)
    ⟨Phase.running, COLOR_OK, 0⟩ rfl 2

/-- C7: The aggregation is the OR-reduction of the six per-channel verdicts
(anyFaults = OR of hasFault, criticalError = OR of isCritical), and it is
permutation-invariant: two cycles whose verdict lists are permutations of each
other render the same indicator color. -/
theorem C7_aggregation_permutation (ins ins2 : CycleInputs)
    (h : (verdictList ins).Perm (verdictList ins2)) :
    loopCycle ins = ((verdictList ins).any (fun v => v.1),
                     (verdictList ins).any (fun v => v.2)) ∧
    loopColor ins = loopColor ins2 := by
  refine ⟨loopCycle_eq ins, ?_⟩
  have hany : ∀ p : Bool × Bool → Bool,
      (verdictList ins).any p = (verdictList ins2).any p := by
    intro p
    cases hx : (verdictList ins).any p with
    | true =>
      obtain ⟨v, hv, hp⟩ := List.any_eq_true.mp hx
      exact (List.any_eq_true.mpr ⟨v, h.mem_iff.mp hv, hp⟩).symm
    | false =>
      symm
      rw [List.any_eq_false] at hx ⊢
      intro v hv
      exact hx v (h.mem_iff.mpr hv)
  rw [loopColor_eq ins, loopColor_eq ins2, hany, hany]

/-- Witness for C7: a cycle whose only fault is on TC0 and a cycle whose only
fault is on TC1 have permuted verdict lists and render the same color. -/
theorem C7_aggregation_permutation_witness :
    loopColor ⟨true, 1, false, 0, false, 0, false, 0, 0, 0⟩ =
      loopColor ⟨false, 0, true, 1, false, 0, false, 0, 0, 0⟩ :=
  (C7_aggregation_permutation
    ⟨true, 1, false, 0, false, 0, false, 0, 0, 0⟩
    ⟨false, 0, true, 1, false, 0, false, 0, 0, 0⟩
    (by
      have h1 : verdictList ⟨true, 1, false, 0, false, 0, false, 0, 0, 0⟩ =
          (true, false) :: (false, false) :: [(false, false), (false, false),
            (false, false), (false, false)] := by decide
      have h2 : verdictList ⟨false, 0, true, 1, false, 0, false, 0, 0, 0⟩ =
          (false, false) :: (true, false) :: [(false, false), (false, false),
            (false, false), (false, false)] := by decide
      rw [h1, h2]
      exact List.Perm.swap (false, false) (true, false) _)).2

/-- C8: A critical verdict is always a faulted verdict, for both classifier
families; consequently a cycle rendered CRITICAL has at least one channel with
hasFault = true. -/
theorem C8_critical_implies_fault :
    (∀ (tempIsNaN : Bool) (fault : Nat),
      (verdictA tempIsNaN fault).2 = true → (verdictA tempIsNaN fault).1 = true) ∧
    (∀ fault : Nat, (verdictB fault).2 = true → (verdictB fault).1 = true) ∧
    (∀ ins : CycleInputs, loopColor ins = COLOR_ERROR →
      (verdictList ins).any (fun v => v.1) = true) := by
  refine ⟨verdictA_crit_fault, verdictB_crit_fault, ?_⟩
  intro ins h
  rw [loopColor_eq ins] at h
  cases hc : (verdictList ins).any (fun v => v.2) with
  | true => exact anyCrit_anyFault ins hc
  | false =>
    rw [hc] at h
    cases ha : (verdictList ins).any (fun v => v.1) with
    | true => rfl
    | false =>
      rw [ha] at h
      simp only [Bool.false_eq_true, if_false] at h
      exact absurd h (by decide)

/-- Witness for C8: a cycle whose TC4 reports 0xFF renders CRITICAL and indeed
has a faulted channel. -/
theorem C8_critical_implies_fault_witness :
    (verdictList ⟨false, 0, false, 0, false, 0, false, 0, 0xFF, 0⟩).any
      (fun v => v.1) = true :=
  C8_critical_implies_fault.2.2
    ⟨false, 0, false, 0, false, 0, false, 0, 0xFF, 0⟩ (by decide)

/-- C9: The all-flags disjunct of the Type B critical test is redundant: for
every 8-bit bitmask and every incoming criticalError flag, readMAX31856 agrees
with the variant whose critical condition is the flag count alone, because
0xFF sets all eight counted flags. -/
theorem C9_allflags_redundant (fault : Nat) (h : fault < 256) (c : Bool) :
    readMAX31856 fault c = readMAX31856_noAllFlags fault c :=
  read56_drop_allflags ⟨fault, h⟩ c

/-- Witness for C9 at the all-flags bitmask 0xFF. -/
theorem C9_allflags_redundant_witness :
    readMAX31856 0xFF false = readMAX31856_noAllFlags 0xFF false :=
  C9_allflags_redundant 0xFF (by decide) false

/-- C10: A NaN Type A reading whose bitmask has none of the three named flag
bits set - including bitmask zero - classifies as (hasFault, isCritical) =
(true, false); bits outside the three named flags never affect the verdict. -/
theorem C10_unnamed_bits_ignored (fault : Nat) (h : fault < 256) :
    (fault &&& (MAX31855_FAULT_OPEN ||| MAX31855_FAULT_SHORT_GND |||
        MAX31855_FAULT_SHORT_VCC) = 0 → verdictA true fault = (true, false)) ∧
    verdictA true fault = verdictA true (fault &&& (MAX31855_FAULT_OPEN |||
        MAX31855_FAULT_SHORT_GND ||| MAX31855_FAULT_SHORT_VCC)) :=
  verdictA_masked ⟨fault, h⟩

/-- Witness for C10 at bitmask 0x48, whose set bits all lie outside the three
named flags. -/
theorem C10_unnamed_bits_ignored_witness :
    verdictA true 0x48 = (true, false) :=
  (C10_unnamed_bits_ignored 0x48 (by decide)).1 (by decide)

end FDL
